import Mathlib

/-!
Verification of the dealership paperwork core: stage classification,
required-document resolution, per-document readiness validation, dot-path
resolution, schema flattening, deep-merge profile updates, and
field-mapping-driven document population.

The development shallowly embeds the TypeScript services
(`formService`/`geminiService`, `customerService`, `messageService`,
`utils`, `constants`). Dynamically typed JavaScript values are modelled by
the inductive `JValue`; JavaScript numbers are modelled by `Int` (every
numeric field of the program holds an integer); string primitives used by
the source (`split`, `replace`, `trim`, `toLowerCase`) are re-implemented
over character lists so that all definitions compute.
-/

namespace CarDealer

/-! ## A model of JavaScript runtime values -/

/-- A JavaScript value: string, number, boolean, `null`, `undefined`,
array, or plain object (an insertion-ordered association list of own
properties, as JavaScript objects enumerate them). -/
inductive JValue where
  | str (s : String)
  | num (n : Int)
  | bool (b : Bool)
  | null
  | undef
  | arr (elems : List JValue)
  | obj (fields : List (String × JValue))

/-- JavaScript truthiness: `''`, `0`, `false`, `null`, `undefined` are
falsy; every other value (including `[]` and `{}`) is truthy. -/
def jsTruthy : JValue → Bool
  | .str s => s != ""
  | .num n => n != 0
  | .bool b => b
  | .null => false
  | .undef => false
  | .arr _ => true
  | .obj _ => true

/-- Own enumerable properties of a value, as `{...target}` spreads them:
the fields of an object, nothing for primitives (spreading a non-empty
string would yield index properties, which never arises in this program
and is not modelled). -/
def objFields : JValue → List (String × JValue)
  | .obj fs => fs
  | _ => []

/-- Property read `fields[key]` on an object's field list: the first
binding of `key`, or `undefined` when absent. -/
def jsGetOwn (fields : List (String × JValue)) (key : String) : JValue :=
  match fields with
  | [] => .undef
  | (k, v) :: rest => if k == key then v else jsGetOwn rest key

/-- First binding of `key` in a field list, as an `Option`. -/
def findField (fields : List (String × JValue)) (key : String) : Option JValue :=
  match fields with
  | [] => none
  | (k, v) :: rest => if k == key then some v else findField rest key

/-- Insertion-ordered update, the shared semantics of JavaScript
`obj[key] = v` and `Map.prototype.set`: an existing key keeps its
position and gets the new value; a new key is appended at the end. -/
def mapSet {α : Type} (m : List (String × α)) (key : String) (v : α) :
    List (String × α) :=
  match m with
  | [] => [(key, v)]
  | (k, w) :: rest =>
      if k == key then (k, v) :: rest else (k, w) :: mapSet rest key v

/-- Association-list lookup used for field mappings
(`mappings[pdfField]` where absence means `undefined`). -/
def lookupMapping (mappings : List (String × String)) (key : String) :
    Option String :=
  match mappings with
  | [] => none
  | (k, v) :: rest => if k == key then some v else lookupMapping rest key

/-! ## Character-list string primitives

The built-in `String` operations of Lean are byte-position based and do
not compute inside the kernel, so the string primitives the source uses
are re-implemented over `String.data`. -/

/-- Splitting helper for `jsSplit`. -/
def jsSplitAux (sep : Char) : List Char → List Char → List String
  | [], acc => [String.mk acc.reverse]
  | c :: rest, acc =>
      if c == sep then String.mk acc.reverse :: jsSplitAux sep rest []
      else jsSplitAux sep rest (c :: acc)

/-- JavaScript `s.split(sep)` for a one-character separator (the source
only ever splits on `'.'`): `"".split('.') = [""]`,
`"a..b".split('.') = ["a", "", "b"]`. -/
def jsSplit (s : String) (sep : Char) : List String :=
  jsSplitAux sep s.data []

/-- Replacement helper for `replaceFirst`. -/
def replaceFirstAux (pat rep : List Char) : List Char → List Char
  | [] => if pat == [] then rep else []
  | c :: rest =>
      if pat.isPrefixOf (c :: rest) then rep ++ (c :: rest).drop pat.length
      else c :: replaceFirstAux pat rep rest

/-- JavaScript `s.replace(pat, rep)` with a string pattern replaces only
the first occurrence (unlike Lean's `String.replace`, which replaces
all; the two agree on the stage names, which contain at most one
underscore). -/
def replaceFirst (s pat rep : String) : String :=
  String.mk (replaceFirstAux pat.data rep.data s.data)

/-- JavaScript `s.trim()`: strip leading and trailing whitespace. -/
def jsTrim (s : String) : String :=
  String.mk (((s.data.dropWhile Char.isWhitespace).reverse.dropWhile
      Char.isWhitespace).reverse)

/-- JavaScript `s.toLowerCase()` restricted to ASCII, which is all the
checkbox comparison in the source needs. -/
def jsToLower (s : String) : String :=
  String.mk (s.data.map Char.toLower)

/-- Canonical array-index reading of a property key: JavaScript exposes
element `i` of an array or string under the key `toString(i)` only
(so `"01"` is not an index). Returns the index for a canonical all-digit
key without a leading zero. -/
def jsIndexKey (s : String) : Option Nat :=
  if s.data ≠ [] && s.data.all Char.isDigit &&
      (s == "0" || s.data.head? != some '0') then
    some (s.data.foldl (fun acc c => acc * 10 + (c.toNat - 48)) 0)
  else none

/-! ## JavaScript string conversion (`String(value)`) -/

mutual

/-- JavaScript `String(value)`: identity on strings, decimal on numbers,
`"true"`/`"false"`, `"null"`/`"undefined"`, `"[object Object]"` on plain
objects, and comma-joined element strings on arrays. -/
def jsToString : JValue → String
  | .str s => s
  | .num n => toString n
  | .bool b => if b then "true" else "false"
  | .null => "null"
  | .undef => "undefined"
  | .obj _ => "[object Object]"
  | .arr elems => jsJoinComma elems

/-- `Array.prototype.toString`: elements joined with `","`, where `null`
and `undefined` elements contribute the empty string. -/
def jsJoinComma : List JValue → String
  | [] => ""
  | v :: rest =>
      let head :=
        match v with
        | .null => ""
        | .undef => ""
        | w => jsToString w
      match rest with
      | [] => head
      | _ => head ++ "," ++ jsJoinComma rest

end

/-! ## Path resolution (`utils.ts`) -/

/-- JavaScript property read `v[key]` on a data value: field lookup on
objects, `length` and canonical index properties on arrays and strings,
`undefined` everywhere else. (Method properties such as `"charAt"` are
functions, which `JValue` cannot hold, so they are not modelled; the
program never reads them through `getValueByPath`.) -/
def jsIndexAccess (v : JValue) (key : String) : JValue :=
  match v with
  | .obj fields => jsGetOwn fields key
  | .arr elems =>
      if key == "length" then .num elems.length
      else
        match jsIndexKey key with
        | some i => elems.getD i .undef
        | none => .undef
  | .str s =>
      if key == "length" then .num s.length
      else
        match jsIndexKey key with
        | some i =>
            match s.data[i]? with
            | some ch => .str (String.mk [ch])
            | none => .undef
        | none => .undef
  | _ => (.undef)

/-- Source `getValueByPath` (`utils.ts`):
`path.split('.').reduce((acc, part) => acc && acc[part], obj)`.
Note that `acc && acc[part]` yields `acc` itself, unchanged, whenever
`acc` is falsy. -/
def getValueByPath (obj : JValue) (path : String) : JValue :=
  (jsSplit path '.').foldl
    (fun acc part => if jsTruthy acc then jsIndexAccess acc part else acc) obj

/-! ## The customer profile data model (`types.ts`, `constants.ts`)

The optional presentation-only field `drivers_license.is_expired` and the
database metadata `id`/`created_at` are never set by the initial profile
and never read by any function modelled here, so they are omitted from
the record. -/

structure Address where
  full_address : String
  street : String
  city : String
  state : String
  zip : String
deriving DecidableEq

structure DriversLicense where
  number : String
  expiration : String
  state : String
deriving DecidableEq

structure PersonalInfo where
  full_name : String
  first_name : String
  last_name : String
  phone : String
  email : String
  address : Address
  drivers_license : DriversLicense
deriving DecidableEq

structure InterestVehicle where
  year : String
  make : String
  model : String
  stock_number : String
  vin : String
deriving DecidableEq

structure TradeVehicle where
  year : String
  make : String
  model : String
  vin : String
  lien_holder : String
  payoff_amount : Int
deriving DecidableEq

structure VehicleInfo where
  interest_vehicle : InterestVehicle
  trade_vehicle : TradeVehicle
  trade_in : Bool
  purchase_type : String
deriving DecidableEq

structure Employment where
  employer : String
  position : String
  income : Int
deriving DecidableEq

structure Reference where
  name : String
  phone : String
  relationship : String
deriving DecidableEq

structure FinancialInfo where
  employment : Employment
  financing_needed : Bool
  references : List Reference
deriving DecidableEq

structure SalesInfo where
  stage : String
  salesperson : String
deriving DecidableEq

structure CustomerProfile where
  personal_info : PersonalInfo
  vehicle_info : VehicleInfo
  financial_info : FinancialInfo
  sales_info : SalesInfo
deriving DecidableEq

/-- Source `SALESPERSON_NAME` (`constants.ts`). -/
def SALESPERSON_NAME : String := "Stephen Schreck"

/-- The JSON shape of a reference entry. -/
def Reference.toJValue (r : Reference) : JValue :=
  .obj [("name", .str r.name), ("phone", .str r.phone),
        ("relationship", .str r.relationship)]

/-- The JSON shape of a customer profile, with the key order of
`INITIAL_CUSTOMER_PROFILE` in `constants.ts`. -/
def CustomerProfile.toJValue (c : CustomerProfile) : JValue :=
  .obj
    [("personal_info", .obj
        [("full_name", .str c.personal_info.full_name),
         ("first_name", .str c.personal_info.first_name),
         ("last_name", .str c.personal_info.last_name),
         ("phone", .str c.personal_info.phone),
         ("email", .str c.personal_info.email),
         ("address", .obj
            [("full_address", .str c.personal_info.address.full_address),
             ("street", .str c.personal_info.address.street),
             ("city", .str c.personal_info.address.city),
             ("state", .str c.personal_info.address.state),
             ("zip", .str c.personal_info.address.zip)]),
         ("drivers_license", .obj
            [("number", .str c.personal_info.drivers_license.number),
             ("expiration", .str c.personal_info.drivers_license.expiration),
             ("state", .str c.personal_info.drivers_license.state)])]),
     ("vehicle_info", .obj
        [("interest_vehicle", .obj
            [("year", .str c.vehicle_info.interest_vehicle.year),
             ("make", .str c.vehicle_info.interest_vehicle.make),
             ("model", .str c.vehicle_info.interest_vehicle.model),
             ("stock_number", .str c.vehicle_info.interest_vehicle.stock_number),
             ("vin", .str c.vehicle_info.interest_vehicle.vin)]),
         ("trade_vehicle", .obj
            [("year", .str c.vehicle_info.trade_vehicle.year),
             ("make", .str c.vehicle_info.trade_vehicle.make),
             ("model", .str c.vehicle_info.trade_vehicle.model),
             ("vin", .str c.vehicle_info.trade_vehicle.vin),
             ("lien_holder", .str c.vehicle_info.trade_vehicle.lien_holder),
             ("payoff_amount", .num c.vehicle_info.trade_vehicle.payoff_amount)]),
         ("trade_in", .bool c.vehicle_info.trade_in),
         ("purchase_type", .str c.vehicle_info.purchase_type)]),
     ("financial_info", .obj
        [("employment", .obj
            [("employer", .str c.financial_info.employment.employer),
             ("position", .str c.financial_info.employment.position),
             ("income", .num c.financial_info.employment.income)]),
         ("financing_needed", .bool c.financial_info.financing_needed),
         ("references", .arr (c.financial_info.references.map Reference.toJValue))]),
     ("sales_info", .obj
        [("stage", .str c.sales_info.stage),
         ("salesperson", .str c.sales_info.salesperson)])]

/-- Source `INITIAL_CUSTOMER_PROFILE` (`constants.ts`): every leaf
defaults to the empty string, `0`, `false`, or the empty list. -/
def INITIAL_CUSTOMER_PROFILE : CustomerProfile :=
  { personal_info :=
      { full_name := "", first_name := "", last_name := "", phone := "",
        email := "",
        address :=
          { full_address := "", street := "", city := "", state := "",
            zip := "" },
        drivers_license := { number := "", expiration := "", state := "OH" } },
    vehicle_info :=
      { interest_vehicle :=
          { year := "", make := "", model := "", stock_number := "",
            vin := "" },
        trade_vehicle :=
          { year := "", make := "", model := "", vin := "",
            lien_holder := "", payoff_amount := 0 },
        trade_in := false,
        purchase_type := "" },
    financial_info :=
      { employment := { employer := "", position := "", income := 0 },
        financing_needed := false,
        references := [] },
    sales_info := { stage := "initial_contact", salesperson := SALESPERSON_NAME } }

/-! ## Stage classification and required forms (`formService.ts`, `constants.ts`) -/

/-- Source `Form` descriptor: id, display name, and stage tag (one of
`initial_contact`, `financing`, `closing`, `always`, `conditional`). -/
structure Form where
  id : String
  name : String
  stage : String
deriving DecidableEq

/-- Source `ALL_FORMS` (`constants.ts`): the static nine-document catalog. -/
def ALL_FORMS : List Form :=
  [⟨"interview_sheet", "Interview Sheet", "initial_contact"⟩,
   ⟨"test_drive_agreement", "Test Drive Agreement", "initial_contact"⟩,
   ⟨"credit_application", "Credit Application (F&I)", "financing"⟩,
   ⟨"reference_sheet", "Reference Sheet", "financing"⟩,
   ⟨"delivery_report", "Delivery Report", "always"⟩,
   ⟨"privacy_policy", "Privacy Policy", "always"⟩,
   ⟨"deal_check_list", "Deal Check List", "always"⟩,
   ⟨"oil_changes_form", "Oil Changes Form", "conditional"⟩,
   ⟨"payoff_authorization", "Payoff Authorization Sheet", "conditional"⟩]

/-- Source `determineStage`: `closing` when the interest-vehicle VIN and
the driver's-license number are both truthy (non-empty), else `financing`
when financing is needed and full name and phone are truthy, else
`initial_contact`. -/
def determineStage (customer : CustomerProfile) : String :=
  if customer.vehicle_info.interest_vehicle.vin != "" &&
      customer.personal_info.drivers_license.number != "" then
    "closing"
  else if customer.financial_info.financing_needed &&
      customer.personal_info.full_name != "" &&
      customer.personal_info.phone != "" then
    "financing"
  else
    "initial_contact"

/-- Body of `getRequiredForms` as a function of the three pieces of the
profile it actually reads: the classified stage, whether
`purchase_type === 'new'`, and `trade_in`. The `Map<string, ...>` keyed
by form id is modelled by the insertion-ordered `mapSet`. -/
def requiredFormsCore (stage : String) (isNewPurchase tradeIn : Bool) :
    List (Form × String) :=
  let requiredForms : List (String × Form × String) :=
    (ALL_FORMS.filter (fun f => f.stage == stage)).foldl
      (fun m f => mapSet m f.id (f, "Stage: " ++ replaceFirst stage "_" " ")) []
  let requiredForms :=
    if isNewPurchase then
      match ALL_FORMS.find? (fun f => f.id == "oil_changes_form") with
      | some form => mapSet requiredForms form.id (form, "New Vehicle")
      | none => requiredForms
    else requiredForms
  let requiredForms :=
    if tradeIn then
      match ALL_FORMS.find? (fun f => f.id == "payoff_authorization") with
      | some form => mapSet requiredForms form.id (form, "Has Trade-In")
      | none => requiredForms
    else requiredForms
  let requiredForms :=
    if stage == "closing" then
      (ALL_FORMS.filter (fun f => f.stage == "always")).foldl
        (fun m f => mapSet m f.id (f, "Required for Sale")) requiredForms
    else requiredForms
  requiredForms.map (fun p => p.2)

/-- Source `getRequiredForms`: stage-tagged forms, then the two
stage-independent conditional rules, then (at closing) all
`always`-tagged forms; output in first-insertion order with
last-write-wins reasons. -/
def getRequiredForms (customer : CustomerProfile) : List (Form × String) :=
  requiredFormsCore (determineStage customer)
    (customer.vehicle_info.purchase_type == "new")
    customer.vehicle_info.trade_in

/-- Source `FormReadiness`. -/
structure FormReadiness where
  isReady : Bool
  warnings : List String
deriving DecidableEq

/-- The warning accumulation of `getFormReadiness`: the per-document
`switch` of required-field checks; each sequential `warnings.push` is
rendered as an appended singleton. -/
def readinessWarnings (formId : String) (customer : CustomerProfile) :
    List String :=
  if formId == "interview_sheet" then
      (if customer.personal_info.full_name == "" then ["Missing customer name."] else []) ++
      (if customer.personal_info.phone == "" then ["Missing phone number."] else []) ++
      (if customer.personal_info.email == "" then ["Missing email address."] else [])
    else if formId == "test_drive_agreement" then
      (if customer.personal_info.full_name == "" then ["Missing customer name."] else []) ++
      (if customer.personal_info.drivers_license.number == "" then ["Missing driver's license number."] else []) ++
      (if customer.personal_info.drivers_license.expiration == "" then ["Missing license expiration date."] else []) ++
      (if customer.vehicle_info.interest_vehicle.make == "" ||
          customer.vehicle_info.interest_vehicle.model == "" then ["Missing vehicle of interest."] else [])
    else if formId == "credit_application" then
      (if customer.personal_info.full_name == "" then ["Missing customer name."] else []) ++
      (if customer.personal_info.address.full_address == "" then ["Missing customer address."] else []) ++
      (if customer.financial_info.employment.employer == "" then ["Missing employment information."] else [])
    else if formId == "reference_sheet" then
      (if customer.personal_info.full_name == "" then ["Missing customer name."] else []) ++
      (if customer.financial_info.references.length < 1 then ["At least one reference is required."] else [])
    else if formId == "delivery_report" then
      (if customer.personal_info.full_name == "" then ["Missing customer name."] else []) ++
      (if customer.vehicle_info.interest_vehicle.vin == "" then ["Missing VIN for vehicle of interest."] else [])
    else if formId == "privacy_policy" || formId == "deal_check_list" then
      (if customer.personal_info.full_name == "" then ["Missing customer name."] else [])
    else if formId == "oil_changes_form" then
      (if customer.personal_info.full_name == "" then ["Missing customer name."] else []) ++
      (if customer.vehicle_info.interest_vehicle.model == "" then ["Missing vehicle model."] else [])
    else if formId == "payoff_authorization" then
      (if customer.personal_info.full_name == "" then ["Missing customer name."] else []) ++
      (if customer.vehicle_info.trade_vehicle.vin == "" then ["Missing trade-in vehicle VIN."] else []) ++
      (if customer.vehicle_info.trade_vehicle.lien_holder == "" then ["Missing trade-in lien holder."] else [])
    else []

/-- Source `getFormReadiness`: the warning list together with
`isReady: warnings.length === 0`. -/
def getFormReadiness (formId : String) (customer : CustomerProfile) :
    FormReadiness :=
  { isReady := (readinessWarnings formId customer).length == 0,
    warnings := readinessWarnings formId customer }

/-! ## Schema flattening (`utils.ts`) -/

mutual

/-- Source `generateFlatKeys`: recursively flatten an object's key paths;
values that are not plain objects (arrays included) are leaves. Only ever
applied to plain objects, so `Object.keys` of a primitive (which would
be empty, or index keys for a string) is modelled as the empty list. -/
def generateFlatKeys : JValue → String → List String
  | .obj fields, path => flatKeysFields fields path
  | _, _ => []

/-- Key-list worker for `generateFlatKeys`: the source's
`Object.keys(obj).reduce` accumulation. -/
def flatKeysFields : List (String × JValue) → String → List String
  | [], _ => []
  | (key, value) :: rest, path =>
      let newPath := if path != "" then path ++ "." ++ key else key
      (match value with
       | .obj fs => generateFlatKeys (.obj fs) newPath
       | _ => [newPath]) ++ flatKeysFields rest path

end

/-- Source `getCustomerProfileFlatKeys`: the flat key list of the
canonical default profile shape (the memoization in the source caches a
pure value and is semantically transparent). -/
def getCustomerProfileFlatKeys : List String :=
  generateFlatKeys INITIAL_CUSTOMER_PROFILE.toJValue ""

/-! ## Deep merge (`customerService.ts`) -/

mutual

/-- Source `deepMerge`: spread the target, then for each source key
either recurse (non-null, non-array object values) or overwrite, where
an overwrite is skipped exactly when the incoming value is `undefined`,
`null`, or `''`. -/
def deepMerge (target source : JValue) : JValue :=
  match source with
  | .obj sfields =>
      if jsTruthy target then
        .obj (deepMergeFields (objFields target) (objFields target) sfields)
      else
        .obj (objFields target)
  | _ => .obj (objFields target)

/-- Key-loop worker for `deepMerge`: `out` is the accumulated output,
`tfields` the original target (the source reads `target[key]`, not the
accumulator). -/
def deepMergeFields (tfields out : List (String × JValue)) :
    List (String × JValue) → List (String × JValue)
  | [] => out
  | (key, sv) :: rest =>
      match sv with
      | .obj o =>
          deepMergeFields tfields
            (mapSet out key (deepMerge (jsGetOwn tfields key) (.obj o))) rest
      | .undef => deepMergeFields tfields out rest
      | .null => deepMergeFields tfields out rest
      | .str s =>
          deepMergeFields tfields
            (if s == "" then out else mapSet out key (.str s)) rest
      | v => deepMergeFields tfields (mapSet out key v) rest

end

/-! ## PDF preview and generation (`messageService.ts`) -/

/-- Source `FilledField`. -/
structure FilledField where
  pdfField : String
  value : String
  sourcePath : String
deriving DecidableEq

/-- Source `SPECIAL_HANDLERS`, keyed lookup. `new Date()` is an effect:
the clock reading that `__CURRENT_DATE__` formats is passed in as `now`. -/
def SPECIAL_HANDLERS (now : String) (key : String) :
    Option (CustomerProfile → String) :=
  if key == "__CURRENT_DATE__" then some (fun _ => now)
  else if key == "__SALESPERSON__" then some (fun _ => SALESPERSON_NAME)
  else if key == "__INTEREST_VEHICLE_YMM__" then
    some (fun c =>
      jsTrim (c.vehicle_info.interest_vehicle.year ++ " " ++
        c.vehicle_info.interest_vehicle.make ++ " " ++
        c.vehicle_info.interest_vehicle.model))
  else if key == "__TRADE_VEHICLE_YMM__" then
    some (fun c =>
      jsTrim (c.vehicle_info.trade_vehicle.year ++ " " ++
        c.vehicle_info.trade_vehicle.make ++ " " ++
        c.vehicle_info.trade_vehicle.model))
  else none

/-- Source `FINANCIAL_FIELDS_TO_SKIP`. -/
def FINANCIAL_FIELDS_TO_SKIP : List String :=
  ["SalePrice", "DownPayment", "PayoffAmount", "AnnualIncome", "SSN"]

/-- The display-formatting step of `generatePreviewData`:
`undefined`/`null`/`''` and numeric `0` become `"---"`, booleans become
`"Yes"`/`"No"`, everything else goes through `String(value)`. -/
def formatPreviewValue (value : JValue) : String :=
  match value with
  | .undef => "---"
  | .null => "---"
  | .str "" => "---"
  | .bool b => if b then "Yes" else "No"
  | .num 0 => "---"
  | v => jsToString v

/-- Source `generatePreviewData`. The saved mapping and the discovered
template field names are fetched from the external template store; here
they are explicit inputs. Skip-listed fields are hard-overridden to
`"[Manual Entry]"` before any mapping lookup; otherwise a truthy mapping
resolves through `SPECIAL_HANDLERS` or `getValueByPath`, and an absent
or empty mapping formats the initial `''`. -/
def generatePreviewData (mappings : List (String × String))
    (discoveredFields : List String) (customer : CustomerProfile)
    (now : String) : List FilledField :=
  discoveredFields.map (fun pdfField =>
    if FINANCIAL_FIELDS_TO_SKIP.contains pdfField then
      { pdfField := pdfField, value := "[Manual Entry]", sourcePath := "N/A" }
    else
      let mappedPath := lookupMapping mappings pdfField
      let value : JValue :=
        match mappedPath with
        | some path =>
            if path != "" then
              match SPECIAL_HANDLERS now path with
              | some handler => .str (handler customer)
              | none => getValueByPath customer.toJValue path
            else .str ""
        | none => .str ""
      let sourcePath :=
        match mappedPath with
        | some path => if path != "" then path else "Not Mapped"
        | none => "Not Mapped"
      { pdfField := pdfField, value := formatPreviewValue value,
        sourcePath := sourcePath })

/-- Kind of a fillable field on a PDF template, as `pdf-lib` classifies
them. -/
inductive PdfFieldKind where
  | text
  | checkbox
  | radio
  | other
deriving DecidableEq

/-- A fillable field of a loaded PDF template: name, kind, current
value, and (for radio groups) the selectable options. -/
structure PdfField where
  name : String
  kind : PdfFieldKind
  value : String
  options : List String
deriving DecidableEq

/-- A loaded PDF document form: its fields, and whether it has been
flattened (made permanently non-editable). -/
structure PdfState where
  fields : List PdfField
  flattened : Bool
deriving DecidableEq

/-- Overwrite the stored value of the named field. -/
def setFieldValue (st : PdfState) (name v : String) : PdfState :=
  { st with
    fields := st.fields.map (fun f => if f.name == name then { f with value := v } else f) }

/-- One iteration of the fill loop of `generatePdfBytes`, including its
`try`/`catch`: a missing field (`getField` throws) or an invalid radio
option (`select` throws) is caught and leaves the document unchanged;
text fields take the value, checkboxes compare the lower-cased value
against `yes`/`true`/`on`, and field kinds matching none of the
`instanceof` arms are left untouched. -/
def tryFillField (st : PdfState) (name v : String) : PdfState :=
  match st.fields.find? (fun f => f.name == name) with
  | none => st
  | some f =>
      match f.kind with
      | .text => setFieldValue st name v
      | .checkbox =>
          if ["yes", "true", "on"].contains (jsToLower v) then
            setFieldValue st name "Yes"
          else setFieldValue st name "Off"
      | .radio =>
          if f.options.contains v then setFieldValue st name v else st
      | .other => st

/-- Source `pdfForm.flatten()`. -/
def flattenForm (st : PdfState) : PdfState :=
  { st with flattened := true }

/-- Source `generatePdfBytes`: load the template (an absent template
aborts with an error naming the form), compute the preview data, attempt
to write every field whose formatted value is neither `"---"` nor
`"[Manual Entry]"`, flatten, and return the final document. -/
def generatePdfBytes (form : Form) (customer : CustomerProfile)
    (mappings : List (String × String)) (discoveredFields : List String)
    (template : Option PdfState) (now : String) : Except String PdfState :=
  match template with
  | none => .error ("Template file not found for form: " ++ form.name)
  | some pdf =>
      let previewData := generatePreviewData mappings discoveredFields customer now
      let filled := previewData.foldl
        (fun st fieldData =>
          if fieldData.value != "---" && fieldData.value != "[Manual Entry]" then
            tryFillField st fieldData.pdfField fieldData.value
          else st) pdf
      .ok (flattenForm filled)

/-! ## Named catalog entries and sample profiles -/

/-- The credit-application catalog entry. -/
def creditApplicationForm : Form :=
  ⟨"credit_application", "Credit Application (F&I)", "financing"⟩

/-- The reference-sheet catalog entry. -/
def referenceSheetForm : Form :=
  ⟨"reference_sheet", "Reference Sheet", "financing"⟩

/-- The payoff-authorization catalog entry (stage tag `conditional`). -/
def payoffAuthorizationForm : Form :=
  ⟨"payoff_authorization", "Payoff Authorization Sheet", "conditional"⟩

/-- A profile satisfying both the closing rule (VIN and license number)
and the financing rule (financing needed, name, phone). -/
def closingFinancingSample : CustomerProfile :=
  { INITIAL_CUSTOMER_PROFILE with
    personal_info :=
      { INITIAL_CUSTOMER_PROFILE.personal_info with
        full_name := "John Smith", phone := "555-0100",
        drivers_license :=
          { INITIAL_CUSTOMER_PROFILE.personal_info.drivers_license with
            number := "OH123456" } },
    vehicle_info :=
      { INITIAL_CUSTOMER_PROFILE.vehicle_info with
        interest_vehicle :=
          { INITIAL_CUSTOMER_PROFILE.vehicle_info.interest_vehicle with
            vin := "1HGCM82633A004352" } },
    financial_info :=
      { INITIAL_CUSTOMER_PROFILE.financial_info with
        financing_needed := true } }

/-- A profile classified as `financing`, with no trade-in and no
purchase type. -/
def financingSample : CustomerProfile :=
  { INITIAL_CUSTOMER_PROFILE with
    personal_info :=
      { INITIAL_CUSTOMER_PROFILE.personal_info with
        full_name := "John Smith", phone := "555-0100" },
    financial_info :=
      { INITIAL_CUSTOMER_PROFILE.financial_info with
        financing_needed := true } }

/-- A closing-stage profile with a trade-in. -/
def closingTradeInSample : CustomerProfile :=
  { INITIAL_CUSTOMER_PROFILE with
    personal_info :=
      { INITIAL_CUSTOMER_PROFILE.personal_info with
        drivers_license :=
          { INITIAL_CUSTOMER_PROFILE.personal_info.drivers_license with
            number := "OH123456" } },
    vehicle_info :=
      { INITIAL_CUSTOMER_PROFILE.vehicle_info with
        interest_vehicle :=
          { INITIAL_CUSTOMER_PROFILE.vehicle_info.interest_vehicle with
            vin := "1HGCM82633A004352" },
        trade_in := true } }

/-! ## Spec-side definitions used by refinement claims -/

/-- The readiness rule table of spec section 4.5, rendered as data: for
each known document id, the ordered list of pairs of a data-missing test
(field empty / zero-length) and its fixed warning string. Written from
the spec's table, to be compared with the code's `readinessWarnings`. -/
def specReadinessChecks (formId : String) :
    List ((CustomerProfile → Bool) × String) :=
  if formId == "interview_sheet" then
    [(fun c => c.personal_info.full_name == "", "Missing customer name."),
     (fun c => c.personal_info.phone == "", "Missing phone number."),
     (fun c => c.personal_info.email == "", "Missing email address.")]
  else if formId == "test_drive_agreement" then
    [(fun c => c.personal_info.full_name == "", "Missing customer name."),
     (fun c => c.personal_info.drivers_license.number == "", "Missing driver's license number."),
     (fun c => c.personal_info.drivers_license.expiration == "", "Missing license expiration date."),
     (fun c => c.vehicle_info.interest_vehicle.make == "" ||
        c.vehicle_info.interest_vehicle.model == "", "Missing vehicle of interest.")]
  else if formId == "credit_application" then
    [(fun c => c.personal_info.full_name == "", "Missing customer name."),
     (fun c => c.personal_info.address.full_address == "", "Missing customer address."),
     (fun c => c.financial_info.employment.employer == "", "Missing employment information.")]
  else if formId == "reference_sheet" then
    [(fun c => c.personal_info.full_name == "", "Missing customer name."),
     (fun c => c.financial_info.references.length < 1, "At least one reference is required.")]
  else if formId == "delivery_report" then
    [(fun c => c.personal_info.full_name == "", "Missing customer name."),
     (fun c => c.vehicle_info.interest_vehicle.vin == "", "Missing VIN for vehicle of interest.")]
  else if formId == "privacy_policy" || formId == "deal_check_list" then
    [(fun c => c.personal_info.full_name == "", "Missing customer name.")]
  else if formId == "oil_changes_form" then
    [(fun c => c.personal_info.full_name == "", "Missing customer name."),
     (fun c => c.vehicle_info.interest_vehicle.model == "", "Missing vehicle model.")]
  else if formId == "payoff_authorization" then
    [(fun c => c.personal_info.full_name == "", "Missing customer name."),
     (fun c => c.vehicle_info.trade_vehicle.vin == "", "Missing trade-in vehicle VIN."),
     (fun c => c.vehicle_info.trade_vehicle.lien_holder == "", "Missing trade-in lien holder.")]
  else []

/-- The warnings a rule table produces on a profile: one fixed warning
per check whose data-missing test fires, in table order. -/
def unmetWarnings (checks : List ((CustomerProfile → Bool) × String))
    (c : CustomerProfile) : List String :=
  checks.filterMap (fun chk => if chk.1 c then some chk.2 else none)

/-- The nine document ids carrying readiness rules. -/
def readinessFormIds : List String :=
  ["interview_sheet", "test_drive_agreement", "credit_application",
   "reference_sheet", "delivery_report", "privacy_policy",
   "deal_check_list", "oil_changes_form", "payoff_authorization"]

/-- Characterization of what one merged field reads back as, given the
target's value at the key (`tv`), the accumulated output's value at the
key (`outv`), and the source's binding at the key: absent, `undefined`,
`null`, and `''` bindings leave the output value; object bindings merge
recursively against the target's value; every other binding (numbers,
including `0`, booleans, and arrays) replaces wholesale. -/
def deepMergeLookupSpec (tv outv : JValue) : Option JValue → JValue
  | none => outv
  | some (.obj o) => deepMerge tv (.obj o)
  | some .undef => outv
  | some .null => outv
  | some (.str s) => if s = "" then outv else .str s
  | some v => v

/-- A one-field radio-group template used to witness the per-field
failure tolerance of `generatePdfBytes`. -/
def samplePdf : PdfState :=
  { fields := [{ name := "Color", kind := .radio, value := "",
                 options := ["Red", "Blue"] }],
    flattened := false }

/-! ## Claim C1: stage classification priority -/

/-- C1: `determineStage` returns `closing` when the interest-vehicle VIN
and the driver's-license number are both non-empty; otherwise
`financing` when financing is needed and full name and phone are
non-empty; otherwise `initial_contact` — in that strict priority order —
and no field outside those five influences the result. -/
theorem determineStage_priority_spec :
    (∀ c : CustomerProfile,
      (c.vehicle_info.interest_vehicle.vin ≠ "" ∧
          c.personal_info.drivers_license.number ≠ "" →
        determineStage c = "closing") ∧
      (¬(c.vehicle_info.interest_vehicle.vin ≠ "" ∧
            c.personal_info.drivers_license.number ≠ "") →
        c.financial_info.financing_needed = true ∧
            c.personal_info.full_name ≠ "" ∧ c.personal_info.phone ≠ "" →
        determineStage c = "financing") ∧
      (¬(c.vehicle_info.interest_vehicle.vin ≠ "" ∧
            c.personal_info.drivers_license.number ≠ "") →
        ¬(c.financial_info.financing_needed = true ∧
            c.personal_info.full_name ≠ "" ∧ c.personal_info.phone ≠ "") →
        determineStage c = "initial_contact")) ∧
    (∀ c₁ c₂ : CustomerProfile,
      c₁.vehicle_info.interest_vehicle.vin = c₂.vehicle_info.interest_vehicle.vin →
      c₁.personal_info.drivers_license.number = c₂.personal_info.drivers_license.number →
      c₁.financial_info.financing_needed = c₂.financial_info.financing_needed →
      c₁.personal_info.full_name = c₂.personal_info.full_name →
      c₁.personal_info.phone = c₂.personal_info.phone →
      determineStage c₁ = determineStage c₂) := by
  constructor
  · intro c
    refine ⟨?_, ?_, ?_⟩ <;> unfold determineStage
    · intro h
      rw [if_pos (by simp [h.1, h.2])]
    · intro hn h
      rw [if_neg (by simpa using hn), if_pos (by simp [h.1, h.2.1, h.2.2])]
    · intro hn hf
      rw [if_neg (by simpa using hn), if_neg (by simpa using hf)]
  · intro c₁ c₂ h1 h2 h3 h4 h5
    unfold determineStage
    rw [h1, h2, h3, h4, h5]

/-- Witness for C1 at a concrete profile satisfying both the closing and
the financing conditions: the result is `closing`. -/
theorem determineStage_priority_spec_witness :
    (closingFinancingSample.vehicle_info.interest_vehicle.vin ≠ "" ∧
      closingFinancingSample.personal_info.drivers_license.number ≠ "") ∧
    closingFinancingSample.financial_info.financing_needed = true ∧
    determineStage closingFinancingSample = "closing" ∧
    determineStage closingFinancingSample = determineStage closingFinancingSample :=
  ⟨⟨by decide, by decide⟩, by decide,
   (determineStage_priority_spec.1 closingFinancingSample).1 ⟨by decide, by decide⟩,
   determineStage_priority_spec.2 closingFinancingSample closingFinancingSample
     rfl rfl rfl rfl rfl⟩

/-! ## Claim C2: required forms at the financing stage -/

/-- C2: on a financing-stage profile with no trade-in and empty purchase
type, `getRequiredForms` returns exactly the financing-tagged catalog
forms, in catalog order, each with reason `"Stage: financing"`. -/
theorem getRequiredForms_financing_exact :
    ∀ c : CustomerProfile, determineStage c = "financing" →
      c.vehicle_info.trade_in = false →
      c.vehicle_info.purchase_type = "" →
      getRequiredForms c =
        [(creditApplicationForm, "Stage: financing"),
         (referenceSheetForm, "Stage: financing")] := by
  intro c hs ht hp
  unfold getRequiredForms
  rw [hs, ht, hp]
  decide

/-- Witness for C2 at a concrete financing-stage profile. -/
theorem getRequiredForms_financing_exact_witness :
    determineStage financingSample = "financing" ∧
    financingSample.vehicle_info.trade_in = false ∧
    financingSample.vehicle_info.purchase_type = "" ∧
    getRequiredForms financingSample =
      [(creditApplicationForm, "Stage: financing"),
       (referenceSheetForm, "Stage: financing")] :=
  ⟨by decide, by decide, by decide,
   getRequiredForms_financing_exact financingSample (by decide) (by decide)
     (by decide)⟩

/-! ## Claim C7: trade-in reason at the closing stage -/

/-- Counterexample to C7 as stated: at a closing-stage trade-in profile,
`payoff_authorization` is present with reason `"Has Trade-In"`, and no
entry carries it with reason `"Required for Sale"` — the closing-stage
"always" rule re-inserts only `always`-tagged forms, and
`payoff_authorization` is tagged `conditional`, so its reason is never
overwritten. -/
theorem getRequiredForms_tradeIn_reason_cex :
    determineStage closingTradeInSample = "closing" ∧
    closingTradeInSample.vehicle_info.trade_in = true ∧
    (payoffAuthorizationForm, "Has Trade-In") ∈
      getRequiredForms closingTradeInSample ∧
    (payoffAuthorizationForm, "Required for Sale") ∉
      getRequiredForms closingTradeInSample := by decide

/-- C7 amended: on every closing-stage profile with a trade-in,
`payoff_authorization` appears exactly once, at its first-insertion
position (right before the three `always`-tagged forms, after the oil
form when the purchase is new), and its reason remains `"Has Trade-In"`;
the closing-stage rule re-inserts only the `always`-tagged forms and
never touches it. -/
theorem getRequiredForms_tradeIn_reason_amended :
    ∀ c : CustomerProfile, c.vehicle_info.trade_in = true →
      determineStage c = "closing" →
      ((getRequiredForms c).filter
          (fun p => p.1.id == "payoff_authorization")) =
        [(payoffAuthorizationForm, "Has Trade-In")] ∧
      (getRequiredForms c).map (fun p => p.1.id) =
        (if c.vehicle_info.purchase_type == "new" then ["oil_changes_form"]
         else []) ++
        ["payoff_authorization", "delivery_report", "privacy_policy",
         "deal_check_list"] := by
  intro c ht hs
  unfold getRequiredForms
  rw [hs, ht]
  cases hb : (c.vehicle_info.purchase_type == "new") <;> decide

/-- Witness for C7's amended theorem at a concrete closing-stage
trade-in profile. -/
theorem getRequiredForms_tradeIn_reason_amended_witness :
    closingTradeInSample.vehicle_info.trade_in = true ∧
    determineStage closingTradeInSample = "closing" ∧
    (((getRequiredForms closingTradeInSample).filter
        (fun p => p.1.id == "payoff_authorization")) =
      [(payoffAuthorizationForm, "Has Trade-In")] ∧
    (getRequiredForms closingTradeInSample).map (fun p => p.1.id) =
      (if closingTradeInSample.vehicle_info.purchase_type == "new" then
        ["oil_changes_form"] else []) ++
      ["payoff_authorization", "delivery_report", "privacy_policy",
       "deal_check_list"]) :=
  ⟨by decide, by decide,
   getRequiredForms_tradeIn_reason_amended closingTradeInSample (by decide)
     (by decide)⟩

/-! ## Claim C10: the required-form list is never short -/

/-- C10: every profile yields at least two required forms — the
`initial_contact` and `financing` stages each contribute their two
stage-tagged catalog forms, and the `closing` stage contributes the
three `always`-tagged forms. -/
theorem getRequiredForms_min_length :
    ∀ c : CustomerProfile, 2 ≤ (getRequiredForms c).length := by
  intro c
  have hs : determineStage c = "closing" ∨ determineStage c = "financing" ∨
      determineStage c = "initial_contact" := by
    unfold determineStage
    split_ifs <;> simp
  unfold getRequiredForms
  rcases hs with h | h | h <;> rw [h] <;>
    cases hb : (c.vehicle_info.purchase_type == "new") <;>
    cases ht : c.vehicle_info.trade_in <;> decide

/-! ## Claim C3: readiness rule table -/

/-- The warnings of a table with a leading check unfold to an appended
conditional singleton. -/
theorem unmetWarnings_cons (p : CustomerProfile → Bool) (w : String)
    (rest : List ((CustomerProfile → Bool) × String)) (c : CustomerProfile) :
    unmetWarnings ((p, w) :: rest) c =
      (if p c then [w] else []) ++ unmetWarnings rest c := by
  by_cases h : p c = true <;> simp [unmetWarnings, List.filterMap_cons, h]

/-- C3: `getFormReadiness` reports, in table order, one fixed warning for
every unmet requirement of the document's rule table (all of them, not
just the first); `isReady` holds exactly when the warning list is empty;
and a document id outside the table is always ready with no warnings. -/
theorem getFormReadiness_table_spec :
    ∀ (formId : String) (c : CustomerProfile),
      (getFormReadiness formId c).warnings =
        unmetWarnings (specReadinessChecks formId) c ∧
      ((getFormReadiness formId c).isReady = true ↔
        (getFormReadiness formId c).warnings = []) ∧
      (formId ∉ readinessFormIds →
        getFormReadiness formId c = { isReady := true, warnings := [] }) := by
  intro formId c
  have hnil : unmetWarnings [] c = [] := rfl
  have hw : readinessWarnings formId c =
      unmetWarnings (specReadinessChecks formId) c := by
    unfold readinessWarnings specReadinessChecks
    by_cases e1 : (formId == "interview_sheet") = true
    · simp only [if_pos e1, unmetWarnings_cons, hnil, List.append_nil, List.append_assoc, decide_eq_true_eq]
    rw [if_neg e1, if_neg e1]
    by_cases e2 : (formId == "test_drive_agreement") = true
    · simp only [if_pos e2, unmetWarnings_cons, hnil, List.append_nil, List.append_assoc, decide_eq_true_eq]
    rw [if_neg e2, if_neg e2]
    by_cases e3 : (formId == "credit_application") = true
    · simp only [if_pos e3, unmetWarnings_cons, hnil, List.append_nil, List.append_assoc, decide_eq_true_eq]
    rw [if_neg e3, if_neg e3]
    by_cases e4 : (formId == "reference_sheet") = true
    · simp only [if_pos e4, unmetWarnings_cons, hnil, List.append_nil, List.append_assoc, decide_eq_true_eq]
    rw [if_neg e4, if_neg e4]
    by_cases e5 : (formId == "delivery_report") = true
    · simp only [if_pos e5, unmetWarnings_cons, hnil, List.append_nil, List.append_assoc, decide_eq_true_eq]
    rw [if_neg e5, if_neg e5]
    by_cases e6 : (formId == "privacy_policy" || formId == "deal_check_list") = true
    · simp only [if_pos e6, unmetWarnings_cons, hnil, List.append_nil, List.append_assoc, decide_eq_true_eq]
    rw [if_neg e6, if_neg e6]
    by_cases e7 : (formId == "oil_changes_form") = true
    · simp only [if_pos e7, unmetWarnings_cons, hnil, List.append_nil, List.append_assoc, decide_eq_true_eq]
    rw [if_neg e7, if_neg e7]
    by_cases e8 : (formId == "payoff_authorization") = true
    · simp only [if_pos e8, unmetWarnings_cons, hnil, List.append_nil, List.append_assoc, decide_eq_true_eq]
    rw [if_neg e8, if_neg e8]
    exact hnil.symm
  refine ⟨hw, ?_, ?_⟩
  · simp [getFormReadiness, List.length_eq_zero]
  · intro hid
    have hids : formId ≠ "interview_sheet" ∧ formId ≠ "test_drive_agreement" ∧
        formId ≠ "credit_application" ∧ formId ≠ "reference_sheet" ∧
        formId ≠ "delivery_report" ∧ formId ≠ "privacy_policy" ∧
        formId ≠ "deal_check_list" ∧ formId ≠ "oil_changes_form" ∧
        formId ≠ "payoff_authorization" := by
      simp [readinessFormIds] at hid
      tauto
    obtain ⟨h1, h2, h3, h4, h5, h6, h7, h8, h9⟩ := hids
    simp [getFormReadiness, readinessWarnings, h1, h2, h3, h4, h5, h6, h7, h8, h9]

/-- Witness for C3's unknown-document default at a concrete unknown id. -/
theorem getFormReadiness_table_spec_witness :
    "buyers_guide" ∉ readinessFormIds ∧
    getFormReadiness "buyers_guide" INITIAL_CUSTOMER_PROFILE =
      { isReady := true, warnings := [] } :=
  ⟨by decide,
   (getFormReadiness_table_spec "buyers_guide" INITIAL_CUSTOMER_PROFILE).2.2
     (by decide)⟩

/-! ## Claim C5: falsy values in dot-path resolution -/

/-- Counterexample to C5 as stated: when an intermediate segment
resolves to the empty string while path segments remain, `getValueByPath`
returns that empty string itself, not `undefined` — the reduce step
`acc && acc[part]` yields the falsy accumulator unchanged. -/
theorem getValueByPath_falsy_cex :
    getValueByPath (.obj [("a", .str "")]) "a.b" = .str "" ∧
    JValue.str "" ≠ JValue.undef :=
  ⟨rfl, fun h => JValue.noConfusion h⟩

/-- A falsy accumulator passes through the remaining reduce steps of
`getValueByPath` unchanged. -/
theorem foldWalk_falsy (parts : List String) :
    ∀ v : JValue, jsTruthy v = false →
      parts.foldl
        (fun acc part => if jsTruthy acc then jsIndexAccess acc part else acc)
        v = v := by
  induction parts with
  | nil => intro v h; rfl
  | cons p ps ih =>
      intro v h
      rw [List.foldl_cons, if_neg (by simp [h])]
      exact ih v h

/-- C5 amended: `getValueByPath` splits on `'.'` and walks segment by
segment; a falsy root or intermediate value (empty string, zero, false,
null, undefined) is returned itself, unchanged, for all remaining
segments; a missing segment on an object yields `undefined`, which then
propagates; and resolving a further segment beneath a truthy
non-indexable node — a non-zero number, or the boolean `true`, the only
truthy values without own data properties — yields `undefined` as well;
the function is total, so it never throws. -/
theorem getValueByPath_falsy_propagation :
    (∀ (root : JValue) (path : String), jsTruthy root = false →
      getValueByPath root path = root) ∧
    (∀ (fields : List (String × JValue)) (key : String) (parts : List String),
      jsGetOwn fields key = .undef →
      (key :: parts).foldl
        (fun acc part => if jsTruthy acc then jsIndexAccess acc part else acc)
        (.obj fields) = .undef) ∧
    (∀ n : Int, n ≠ 0 → ∀ (key : String) (parts : List String),
      (key :: parts).foldl
        (fun acc part => if jsTruthy acc then jsIndexAccess acc part else acc)
        (.num n) = .undef) ∧
    (∀ (key : String) (parts : List String),
      (key :: parts).foldl
        (fun acc part => if jsTruthy acc then jsIndexAccess acc part else acc)
        (.bool true) = .undef) := by
  refine ⟨?_, ?_, ?_, ?_⟩
  · intro root path h
    unfold getValueByPath
    exact foldWalk_falsy _ root h
  · intro fields key parts h
    rw [List.foldl_cons,
      if_pos (show jsTruthy (JValue.obj fields) = true from rfl),
      show jsIndexAccess (.obj fields) key = jsGetOwn fields key from rfl, h]
    exact foldWalk_falsy parts .undef rfl
  · intro n hn key parts
    rw [List.foldl_cons, if_pos (show jsTruthy (JValue.num n) = true by simp [jsTruthy, hn]),
      show jsIndexAccess (.num n) key = .undef from rfl]
    exact foldWalk_falsy parts .undef rfl
  · intro key parts
    rw [List.foldl_cons, if_pos (show jsTruthy (JValue.bool true) = true from rfl),
      show jsIndexAccess (.bool true) key = .undef from rfl]
    exact foldWalk_falsy parts .undef rfl

/-- Witness for C5's amended theorem: a falsy root is returned itself, a
missing first segment propagates `undefined`, and a further segment
beneath a non-zero number or beneath `true` yields `undefined`. -/
theorem getValueByPath_falsy_propagation_witness :
    jsTruthy (JValue.str "") = false ∧
    getValueByPath (JValue.str "") "x.y" = JValue.str "" ∧
    jsGetOwn [("a", JValue.str "x")] "b" = JValue.undef ∧
    ["b", "c"].foldl
        (fun acc part => if jsTruthy acc then jsIndexAccess acc part else acc)
        (JValue.obj [("a", JValue.str "x")]) = JValue.undef ∧
    (5000 : Int) ≠ 0 ∧
    ["b"].foldl
        (fun acc part => if jsTruthy acc then jsIndexAccess acc part else acc)
        (JValue.num 5000) = JValue.undef ∧
    ["b"].foldl
        (fun acc part => if jsTruthy acc then jsIndexAccess acc part else acc)
        (JValue.bool true) = JValue.undef :=
  ⟨rfl, getValueByPath_falsy_propagation.1 (JValue.str "") "x.y" rfl, rfl,
   getValueByPath_falsy_propagation.2.1 [("a", JValue.str "x")] "b" ["c"] rfl,
   by decide,
   getValueByPath_falsy_propagation.2.2.1 5000 (by decide) "b" [],
   getValueByPath_falsy_propagation.2.2.2 "b" []⟩

/-! ## Claim C6: flattened schema paths always resolve -/

/-- C6: every dot path produced by flattening the canonical default
profile resolves to a defined (non-`undefined`) value on every profile
of the canonical shape — in particular on every fully populated one —
and the references list is emitted as a single leaf path that is never
recursed into. -/
theorem flatKeys_resolve_defined :
    (∀ p : CustomerProfile, ∀ path ∈ getCustomerProfileFlatKeys,
      getValueByPath p.toJValue path ≠ JValue.undef) ∧
    "financial_info.references" ∈ getCustomerProfileFlatKeys ∧
    (∀ path ∈ getCustomerProfileFlatKeys,
      ("financial_info.references.".data.isPrefixOf path.data) = false) := by
  refine ⟨?_, by decide, by decide⟩
  intro p path hpath
  have hkeys : getCustomerProfileFlatKeys =
      ["personal_info.full_name", "personal_info.first_name",
       "personal_info.last_name", "personal_info.phone", "personal_info.email",
       "personal_info.address.full_address", "personal_info.address.street",
       "personal_info.address.city", "personal_info.address.state",
       "personal_info.address.zip", "personal_info.drivers_license.number",
       "personal_info.drivers_license.expiration",
       "personal_info.drivers_license.state",
       "vehicle_info.interest_vehicle.year", "vehicle_info.interest_vehicle.make",
       "vehicle_info.interest_vehicle.model",
       "vehicle_info.interest_vehicle.stock_number",
       "vehicle_info.interest_vehicle.vin", "vehicle_info.trade_vehicle.year",
       "vehicle_info.trade_vehicle.make", "vehicle_info.trade_vehicle.model",
       "vehicle_info.trade_vehicle.vin", "vehicle_info.trade_vehicle.lien_holder",
       "vehicle_info.trade_vehicle.payoff_amount", "vehicle_info.trade_in",
       "vehicle_info.purchase_type", "financial_info.employment.employer",
       "financial_info.employment.position", "financial_info.employment.income",
       "financial_info.financing_needed", "financial_info.references",
       "sales_info.stage", "sales_info.salesperson"] := by decide
  rw [hkeys] at hpath
  simp only [List.mem_cons, List.not_mem_nil, or_false] at hpath
  rcases hpath with rfl | rfl | rfl | rfl | rfl | rfl | rfl | rfl | rfl | rfl |
    rfl | rfl | rfl | rfl | rfl | rfl | rfl | rfl | rfl | rfl | rfl | rfl |
    rfl | rfl | rfl | rfl | rfl | rfl | rfl | rfl | rfl | rfl | rfl <;>
    exact fun h => JValue.noConfusion h

/-- Witness for C6 at the initial profile and a concrete flat path. -/
theorem flatKeys_resolve_defined_witness :
    "personal_info.full_name" ∈ getCustomerProfileFlatKeys ∧
    getValueByPath INITIAL_CUSTOMER_PROFILE.toJValue "personal_info.full_name" ≠
      JValue.undef ∧
    ("financial_info.references.".data.isPrefixOf
      "personal_info.full_name".data) = false :=
  ⟨by decide,
   flatKeys_resolve_defined.1 INITIAL_CUSTOMER_PROFILE "personal_info.full_name"
     (by decide),
   flatKeys_resolve_defined.2.2 "personal_info.full_name" (by decide)⟩

/-! ## Claim C4: deep-merge update semantics -/

/-- Reading back the key just set by `mapSet` yields the new value. -/
theorem jsGetOwn_mapSet_self (l : List (String × JValue)) (k : String)
    (v : JValue) : jsGetOwn (mapSet l k v) k = v := by
  induction l with
  | nil => simp [mapSet, jsGetOwn]
  | cons hd tl ih =>
      obtain ⟨k1, w⟩ := hd
      by_cases h : k1 = k
      · subst h
        simp [mapSet, jsGetOwn]
      · simp [mapSet, jsGetOwn, h, ih]

/-- Setting one key with `mapSet` leaves every other key's value alone. -/
theorem jsGetOwn_mapSet_ne (l : List (String × JValue)) (k1 k : String)
    (v : JValue) (hne : k1 ≠ k) :
    jsGetOwn (mapSet l k1 v) k = jsGetOwn l k := by
  induction l with
  | nil => simp [mapSet, jsGetOwn, hne]
  | cons hd tl ih =>
      obtain ⟨k2, w⟩ := hd
      by_cases h : k2 = k1
      · subst h
        simp [mapSet, jsGetOwn, hne]
      · simp [mapSet, jsGetOwn, h, ih]

/-- A key that occurs nowhere in a field list has no binding. -/
theorem findField_eq_none (l : List (String × JValue)) (k : String)
    (h : k ∉ l.map Prod.fst) : findField l k = none := by
  induction l with
  | nil => rfl
  | cons hd tl ih =>
      obtain ⟨k1, v⟩ := hd
      rw [List.map_cons, List.mem_cons] at h
      push_neg at h
      have hne : k1 ≠ k := fun he => h.1 (by simp [he])
      simp [findField, hne, ih h.2]

/-- What the merge loop of `deepMerge` leaves at each key: the aux
induction behind the C4 characterization, generalized over the
accumulated output. -/
theorem deepMergeFields_getOwn :
    ∀ (sfields tfields out : List (String × JValue)) (k : String),
      (sfields.map Prod.fst).Nodup →
      jsGetOwn (deepMergeFields tfields out sfields) k =
        deepMergeLookupSpec (jsGetOwn tfields k) (jsGetOwn out k)
          (findField sfields k) := by
  intro sfields
  induction sfields with
  | nil => intro tf out k hn; rfl
  | cons hd rest ih =>
      obtain ⟨k1, sv⟩ := hd
      intro tf out k hn
      rw [List.map_cons, List.nodup_cons] at hn
      obtain ⟨h1, h2⟩ := hn
      cases sv with
      | obj o =>
          rw [show deepMergeFields tf out ((k1, .obj o) :: rest) =
              deepMergeFields tf
                (mapSet out k1 (deepMerge (jsGetOwn tf k1) (.obj o))) rest
              from rfl, ih tf _ k h2]
          by_cases hk : k1 = k
          · subst hk
            rw [findField_eq_none rest k1 h1, jsGetOwn_mapSet_self]
            simp [deepMergeLookupSpec, findField]
          · rw [jsGetOwn_mapSet_ne _ _ _ _ hk]
            simp [findField, hk]
      | undef =>
          rw [show deepMergeFields tf out ((k1, .undef) :: rest) =
              deepMergeFields tf out rest from rfl, ih tf out k h2]
          by_cases hk : k1 = k
          · subst hk
            rw [findField_eq_none rest k1 h1]
            simp [deepMergeLookupSpec, findField]
          · simp [findField, hk]
      | null =>
          rw [show deepMergeFields tf out ((k1, .null) :: rest) =
              deepMergeFields tf out rest from rfl, ih tf out k h2]
          by_cases hk : k1 = k
          · subst hk
            rw [findField_eq_none rest k1 h1]
            simp [deepMergeLookupSpec, findField]
          · simp [findField, hk]
      | str s =>
          by_cases hs : s = ""
          · subst hs
            rw [show deepMergeFields tf out ((k1, .str "") :: rest) =
                deepMergeFields tf out rest from rfl, ih tf out k h2]
            by_cases hk : k1 = k
            · subst hk
              rw [findField_eq_none rest k1 h1]
              simp [deepMergeLookupSpec, findField]
            · simp [findField, hk]
          · rw [show deepMergeFields tf out ((k1, .str s) :: rest) =
                deepMergeFields tf
                  (if s == "" then out else mapSet out k1 (.str s)) rest
                from rfl, if_neg (by simp [hs]), ih tf _ k h2]
            by_cases hk : k1 = k
            · subst hk
              rw [findField_eq_none rest k1 h1, jsGetOwn_mapSet_self]
              simp [deepMergeLookupSpec, findField, hs]
            · rw [jsGetOwn_mapSet_ne _ _ _ _ hk]
              simp [findField, hk]
      | num n =>
          rw [show deepMergeFields tf out ((k1, .num n) :: rest) =
              deepMergeFields tf (mapSet out k1 (.num n)) rest from rfl,
            ih tf _ k h2]
          by_cases hk : k1 = k
          · subst hk
            rw [findField_eq_none rest k1 h1, jsGetOwn_mapSet_self]
            simp [deepMergeLookupSpec, findField]
          · rw [jsGetOwn_mapSet_ne _ _ _ _ hk]
            simp [findField, hk]
      | bool b =>
          rw [show deepMergeFields tf out ((k1, .bool b) :: rest) =
              deepMergeFields tf (mapSet out k1 (.bool b)) rest from rfl,
            ih tf _ k h2]
          by_cases hk : k1 = k
          · subst hk
            rw [findField_eq_none rest k1 h1, jsGetOwn_mapSet_self]
            simp [deepMergeLookupSpec, findField]
          · rw [jsGetOwn_mapSet_ne _ _ _ _ hk]
            simp [findField, hk]
      | arr a =>
          rw [show deepMergeFields tf out ((k1, .arr a) :: rest) =
              deepMergeFields tf (mapSet out k1 (.arr a)) rest from rfl,
            ih tf _ k h2]
          by_cases hk : k1 = k
          · subst hk
            rw [findField_eq_none rest k1 h1, jsGetOwn_mapSet_self]
            simp [deepMergeLookupSpec, findField]
          · rw [jsGetOwn_mapSet_ne _ _ _ _ hk]
            simp [findField, hk]

/-- Counterexample to C4 as stated: `deepMerge` overwrites an existing
non-zero numeric leaf (`payoff_amount = 5000`) with an incoming zero —
the skip test only blocks `undefined`, `null`, and `''`. -/
theorem deepMerge_zero_overwrites_cex :
    deepMerge (.obj [("payoff_amount", .num 5000)])
        (.obj [("payoff_amount", .num 0)]) =
      .obj [("payoff_amount", .num 0)] ∧
    jsGetOwn [("payoff_amount", JValue.num 5000)] "payoff_amount" =
      .num 5000 ∧
    (5000 : Int) ≠ 0 :=
  ⟨rfl, rfl, by decide⟩

/-- C4 amended: for object-to-object merges with well-formed (duplicate
free) source objects, the value read back at any key is characterized by
`deepMergeLookupSpec`: an incoming `undefined`, `null`, or `''` — and an
absent key — leaves the target's value; an incoming non-null, non-array
object merges recursively, field by field; every other incoming value
(numbers including zero, booleans including false, and arrays including
empty ones) replaces the target's value wholesale. -/
theorem deepMerge_update_semantics :
    ∀ (tfields sfields : List (String × JValue)) (k : String),
      (sfields.map Prod.fst).Nodup →
      jsGetOwn (objFields (deepMerge (.obj tfields) (.obj sfields))) k =
        deepMergeLookupSpec (jsGetOwn tfields k) (jsGetOwn tfields k)
          (findField sfields k) := by
  intro tf sf k hn
  rw [show deepMerge (.obj tf) (.obj sf) = .obj (deepMergeFields tf tf sf)
    from rfl]
  exact deepMergeFields_getOwn sf tf tf k hn

/-- Witness for C4's amended theorem: an incoming empty string leaves
the stored value in place. -/
theorem deepMerge_update_semantics_witness :
    (([("a", JValue.str "")].map Prod.fst)).Nodup ∧
    jsGetOwn (objFields (deepMerge (.obj [("a", .str "old")])
        (.obj [("a", .str "")]))) "a" =
      deepMergeLookupSpec (jsGetOwn [("a", .str "old")] "a")
        (jsGetOwn [("a", .str "old")] "a")
        (findField [("a", .str "")] "a") :=
  ⟨by decide,
   deepMerge_update_semantics [("a", .str "old")] [("a", .str "")] "a"
     (by decide)⟩

/-! ## Claim C8: per-field write tolerance in PDF generation -/

/-- Folding a step that ignores non-matching elements equals folding the
real step over the filtered list. -/
theorem foldl_if_eq_foldl_filter {α β : Type} (p : α → Bool) (f : β → α → β) :
    ∀ (l : List α) (init : β),
      l.foldl (fun acc a => if p a then f acc a else acc) init =
        (l.filter p).foldl f init := by
  intro l
  induction l with
  | nil => intro init; rfl
  | cons a tl ih =>
      intro init
      by_cases h : p a = true <;> simp [List.filter_cons, h, ih]

/-- C8: on a present template, `generatePdfBytes` always succeeds,
writing exactly the preview fields whose formatted value is neither
`"---"` nor `"[Manual Entry]"` (in order), then flattening; and an
individual write failure — a field name missing from the template, or a
radio value not among the options — leaves the document unchanged and
never aborts the run. -/
theorem generatePdfBytes_skip_and_resilience :
    (∀ (form : Form) (c : CustomerProfile) (mappings : List (String × String))
        (discovered : List String) (pdf : PdfState) (now : String),
      generatePdfBytes form c mappings discovered (some pdf) now =
        .ok (flattenForm
          (((generatePreviewData mappings discovered c now).filter
              (fun fd => fd.value != "---" && fd.value != "[Manual Entry]")).foldl
            (fun st fd => tryFillField st fd.pdfField fd.value) pdf))) ∧
    (∀ (st : PdfState) (name v : String),
      st.fields.find? (fun f => f.name == name) = none →
      tryFillField st name v = st) ∧
    (∀ (st : PdfState) (name v : String) (f : PdfField),
      st.fields.find? (fun f2 => f2.name == name) = some f →
      f.kind = .radio → f.options.contains v = false →
      tryFillField st name v = st) := by
  refine ⟨?_, ?_, ?_⟩
  · intro form c mappings discovered pdf now
    simp only [generatePdfBytes]
    exact congrArg (fun x => Except.ok (flattenForm x))
      (foldl_if_eq_foldl_filter
        (fun fd : FilledField => fd.value != "---" && fd.value != "[Manual Entry]")
        (fun st fd => tryFillField st fd.pdfField fd.value)
        (generatePreviewData mappings discovered c now) pdf)
  · intro st name v h
    simp [tryFillField, h]
  · intro st name v f hf hk ho
    have ho2 : v ∉ f.options := by simpa using ho
    simp [tryFillField, hf, hk, ho2]

/-- Witness for C8 at a concrete one-field radio template: a missing
field name and an invalid radio option are both skipped without
changing the document. -/
theorem generatePdfBytes_skip_and_resilience_witness :
    samplePdf.fields.find? (fun f => f.name == "Missing") = none ∧
    tryFillField samplePdf "Missing" "X" = samplePdf ∧
    samplePdf.fields.find? (fun f2 => f2.name == "Color") =
      some { name := "Color", kind := .radio, value := "",
             options := ["Red", "Blue"] } ∧
    (["Red", "Blue"].contains "Green") = false ∧
    tryFillField samplePdf "Color" "Green" = samplePdf ∧
    generatePdfBytes creditApplicationForm INITIAL_CUSTOMER_PROFILE [] []
        (some samplePdf) "1/1/2024" =
      .ok (flattenForm
        (((generatePreviewData [] [] INITIAL_CUSTOMER_PROFILE "1/1/2024").filter
            (fun fd => fd.value != "---" && fd.value != "[Manual Entry]")).foldl
          (fun st fd => tryFillField st fd.pdfField fd.value) samplePdf)) :=
  ⟨by decide,
   generatePdfBytes_skip_and_resilience.2.1 samplePdf "Missing" "X" (by decide),
   by decide, by decide,
   generatePdfBytes_skip_and_resilience.2.2 samplePdf "Color" "Green"
     { name := "Color", kind := .radio, value := "", options := ["Red", "Blue"] }
     (by decide) rfl (by decide),
   generatePdfBytes_skip_and_resilience.1 creditApplicationForm
     INITIAL_CUSTOMER_PROFILE [] [] samplePdf "1/1/2024"⟩

/-! ## Claim C9: preview determinism and the current-date key -/

/-- Counterexample to C9 as stated: with a field mapped to
`__CURRENT_DATE__`, two runs of `generatePreviewData` under different
clock readings produce different output, so the computation is not a
function of mapping, profile, and discovered fields alone. -/
theorem generatePreviewData_clock_cex :
    generatePreviewData [("DateField", "__CURRENT_DATE__")] ["DateField"]
        INITIAL_CUSTOMER_PROFILE "1/1/2024" ≠
      generatePreviewData [("DateField", "__CURRENT_DATE__")] ["DateField"]
        INITIAL_CUSTOMER_PROFILE "1/2/2024" := by decide

/-- C9 amended: `generatePreviewData` is a pure function of the mapping,
the discovered fields, the profile, and the clock reading; two calls
give byte-identical ordered output whenever no non-skip-listed
discovered field is mapped to `__CURRENT_DATE__` — only the
current-date special value reads the clock, so determinism across calls
otherwise requires the formatted date to be unchanged. -/
theorem generatePreviewData_deterministic_amended :
    ∀ (mappings : List (String × String)) (discovered : List String)
      (c : CustomerProfile) (now1 now2 : String),
      (∀ f ∈ discovered, FINANCIAL_FIELDS_TO_SKIP.contains f = false →
        lookupMapping mappings f ≠ some "__CURRENT_DATE__") →
      generatePreviewData mappings discovered c now1 =
        generatePreviewData mappings discovered c now2 := by
  intro mappings discovered c now1 now2 h
  unfold generatePreviewData
  refine List.map_congr_left ?_
  intro f hf
  cases hc : FINANCIAL_FIELDS_TO_SKIP.contains f
  · have hd := h f hf hc
    simp only [hc, Bool.false_eq_true, if_false]
    cases hm : lookupMapping mappings f with
    | none => rfl
    | some path =>
        by_cases hp : path = ""
        · subst hp
          rfl
        · have hpd : path ≠ "__CURRENT_DATE__" := fun he => hd (by rw [hm, he])
          have hb1 : (path == "__CURRENT_DATE__") = false := by simp [hpd]
          have hb2 : (path != "") = true := by simp [hp]
          simp only [hb2, if_true, SPECIAL_HANDLERS, hb1, Bool.false_eq_true,
            if_false]
  · simp only [hc, if_true]

/-- Witness for C9's amended theorem: a salesperson-mapped field is
clock-independent across two different readings. -/
theorem generatePreviewData_deterministic_amended_witness :
    (∀ f ∈ ["RepName"],
      FINANCIAL_FIELDS_TO_SKIP.contains f = false →
      lookupMapping [("RepName", "__SALESPERSON__")] f ≠
        some "__CURRENT_DATE__") ∧
    generatePreviewData [("RepName", "__SALESPERSON__")] ["RepName"]
        INITIAL_CUSTOMER_PROFILE "1/1/2024" =
      generatePreviewData [("RepName", "__SALESPERSON__")] ["RepName"]
        INITIAL_CUSTOMER_PROFILE "1/2/2024" :=
  ⟨by decide,
   generatePreviewData_deterministic_amended [("RepName", "__SALESPERSON__")]
     ["RepName"] INITIAL_CUSTOMER_PROFILE "1/1/2024" "1/2/2024" (by decide)⟩

end CarDealer
